import Mathlib

/-!
Shallow embedding of `src/projects/websocket-chat-demo/demo.py`: the concurrent
multi-client chat session simulator (Protocol Codec, Session, Listener Loop,
Orchestrator, Room Provisioner glue), together with theorems settling the
spec claims about it.

Conventions of the embedding:
* JSON values are the inductive `Json`; `json.loads` of an inbound byte string
  is abstracted as an `Inbound` value (`malformed` when `json.loads` raises
  `json.JSONDecodeError`, `frame j` when it returns the value `j`).
* Python exceptions crossing a boundary of interest are made explicit with
  `Except PyExn`; code that cannot raise is a plain function.
* Wall-clock sleeps are recorded as `Event.sleep` (milliseconds); the random
  draws of the script (`random.uniform` pacing, `random.choice` contents,
  `random.sample` username selection) are parameters of the functions, with
  their guaranteed properties taken as hypotheses where needed.
* Log lines keep the kind of the source print (`info` = user color / white,
  `error` = red); presentation details (colors, timestamps, emoji) are dropped
  and the rendering of non-string JSON values in log text is coarse, since no
  claim depends on the exact text.
-/

namespace ChatDemo

/-- JSON values as produced by `json.loads`. -/
inductive Json where
  | null
  | bool (b : Bool)
  | num (n : Int)
  | str (s : String)
  | arr (items : List Json)
  | obj (fields : List (String × Json))

/-- `d.get(key)` on a Python dict represented as an association list
(keys of dicts built by the demo are distinct, so first-match lookup agrees
with Python dict lookup). -/
def jGet (fields : List (String × Json)) (key : String) : Option Json :=
  (fields.find? (fun p => p.1 = key)).map Prod.snd

/-- The fixed username pool (`USERNAMES`, demo.py lines 56-59). -/
def USERNAMES : List String :=
  ["Alice", "Bob", "Charlie", "Diana", "Eve", "Frank",
   "Grace", "Henry", "Ivy", "Jack", "Kate", "Leo"]

/-- One printed line: `info` for `ChatClient.log` / white prints, `error` for
`ChatClient.log_error` / red prints. -/
inductive LogLine where
  | info (s : String)
  | error (s : String)
deriving DecidableEq

/-- Outbound protocol frames (the serialized envelopes of `join_room`,
`send_message`, `leave_room`, `get_history`, `get_users`). -/
inductive Frame where
  | join (roomId username : String)
  | message (content : String)
  | leave
  | history
  | users
deriving DecidableEq

/-- One observable step of a session script (`simulate_chat`), in issuance
order: connection attempt, log line, listener-task start, frame send,
`asyncio.sleep` (milliseconds), the teardown steps, and the final
`ChatClient.close` call. -/
inductive Event where
  | connectAttempt
  | log (l : LogLine)
  | startListener
  | send (f : Frame)
  | sleep (ms : Nat)
  | setRunningFalse
  | cancelListener
  | awaitListener
  | closeWs
deriving DecidableEq

/-- `ChatClient.connect` (demo.py lines 142-150): `websockets.connect` either
succeeds or raises; the `except` catches the exception, logs, and returns
`False`. `outcome` is the transport-level result of the connection attempt. -/
def connect (outcome : Except String Unit) : Bool × List LogLine :=
  match outcome with
  | .ok _ => (true, [.info "Connected to server"])
  | .error e => (false, [.error ("Failed to connect: " ++ e)])

/-- The paced messaging loop of `simulate_chat` (demo.py lines 306-311):
for each `i < numMessages`, sleep a random pacing delay, log, send one
`message` frame. `pace i` models `random.uniform(0.5, 2.0)` in ms and
`content i` models `random.choice(SAMPLE_MESSAGES)`. -/
def msgEvents (numMessages : Nat) (pace : Nat → Nat) (content : Nat → String) :
    List Event :=
  (List.range numMessages).flatMap (fun i =>
    [Event.sleep (pace i),
     Event.log (.info ("Sending: " ++ content i)),
     Event.send (.message (content i))])

/-- `simulate_chat` (demo.py lines 287-327) as its trace of events, for one
client with the given username. If the connection attempt fails, the script
returns right after the connect attempt (lines 290-291); otherwise it starts
the listener, joins, queries history and users, runs the messaging loop,
leaves, and tears down (set `running` false, cancel the listener task, await
it, then `ChatClient.close`). -/
def simulate_chat (connectOutcome : Except String Unit) (roomId username : String)
    (numMessages : Nat) (pace : Nat → Nat) (content : Nat → String) : List Event :=
  let c := connect connectOutcome
  let pre := Event.connectAttempt :: c.2.map Event.log
  if c.1 then
    pre ++
    [Event.startListener,
     Event.send (.join roomId username),
     Event.log (.info ("Joining room " ++ roomId ++ "...")),
     Event.sleep 500,
     Event.send .history, Event.sleep 200,
     Event.send .users, Event.sleep 300] ++
    msgEvents numMessages pace content ++
    [Event.sleep 1000,
     Event.send .leave, Event.log (.info "Left the room"), Event.sleep 300,
     Event.setRunningFalse, Event.cancelListener, Event.awaitListener,
     Event.closeWs]
  else pre

/-- `ChatClient._extract_usernames` (demo.py lines 107-140): list payloads keep
their string elements; dict payloads read `users` (defaulting to an empty
list), reject non-list `users`, and collect string elements and the string
`username` field of object elements; anything else yields an empty list. -/
def extract_usernames (payload : Json) : List String :=
  match payload with
  | .arr items =>
    items.filterMap (fun u => match u with | .str s => some s | _ => none)
  | .obj fields =>
    match (jGet fields "users").getD (.arr []) with
    | .arr us =>
      us.filterMap (fun u => match u with
        | .obj f =>
          match jGet f "username" with
          | some (.str s) => some s
          | _ => none
        | .str s => some s
        | _ => none)
    | _ => []
  | _ => []

/-- Coarse rendering of a JSON value inside a Python f-string (`str(value)`);
only the scalar cases are rendered faithfully — no claim depends on the text
of a log line containing a non-scalar value. -/
def pyShow : Json → String
  | .null => "None"
  | .bool true => "True"
  | .bool false => "False"
  | .num n => toString n
  | .str s => s
  | .arr _ => "[...]"
  | .obj _ => "\x7b...\x7d"

/-- Rendering of an `Option Json` as Python renders `dict.get` results
(`None` for a missing key). -/
def pyShowOpt : Option Json → String
  | none => "None"
  | some j => pyShow j

/-- Python exceptions relevant to the listen loop: `json.JSONDecodeError`
from `json.loads`, and `AttributeError` from calling `.get` on a non-dict. -/
inductive PyExn where
  | jsonDecodeError
  | attributeError
deriving DecidableEq

/-- `data.get(key, default)` where `data` is an arbitrary JSON value: raises
`AttributeError` unless `data` is a dict (demo.py lines 199-200 call this on
the decoded top-level value with no type check). -/
def dataGet (j : Json) (key : String) (default : Json) : Except PyExn Json :=
  match j with
  | .obj fields => .ok ((jGet fields key).getD default)
  | _ => .error .attributeError

/-- Python `payload.get("username") != self.username`: true when the value is
absent, non-string, or a different string. -/
def usernameDiffers (v : Option Json) (username : String) : Bool :=
  match v with
  | some (.str s) => s ≠ username
  | _ => true

/-- The `history` payload normalization (demo.py lines 218-224): a list
payload is itself the message list; a dict payload yields its `messages`
field (defaulting to an empty list); anything else yields an empty list. -/
def historyMessages (payload : Json) : Json :=
  match payload with
  | .arr ms => .arr ms
  | .obj f => (jGet f "messages").getD (.arr [])
  | _ => .arr []

/-- The type dispatch of `ChatClient.listen` (demo.py lines 202-234), given
the already-extracted `type` and `payload` values: each recognized type with
an acceptable payload shape produces one log line; every shape mismatch
falls through to no log (or to default field values) without raising. -/
def dispatch (username : String) (msgType payload : Json) : List LogLine :=
  match msgType with
  | .str t =>
    if t = "joined" then
      match payload with
      | .obj f =>
        [.info ("Successfully joined room " ++ pyShowOpt (jGet f "room_id"))]
      | _ => []
    else if t = "user_joined" then
      match payload with
      | .obj f =>
        if usernameDiffers (jGet f "username") username then
          [.info (pyShowOpt (jGet f "username") ++ " joined the room")]
        else []
      | _ => []
    else if t = "user_left" then
      match payload with
      | .obj f => [.info (pyShowOpt (jGet f "username") ++ " left the room")]
      | _ => []
    else if t = "chat_message" then
      match payload with
      | .obj f =>
        let sender := (jGet f "username").getD (.str "Unknown")
        let content := (jGet f "content").getD (.str "")
        if usernameDiffers (some sender) username then
          [.info (pyShow sender ++ ": " ++ pyShow content)]
        else []
      | _ => []
    else if t = "history" then
      match historyMessages payload with
      | .arr [] => []
      | .arr ms => [.info ("History: " ++ toString ms.length ++ " messages")]
      | _ => []
    else if t = "users" then
      [.info ("Users in room: " ++ String.intercalate ", "
        (extract_usernames payload))]
    else if t = "error" then
      match payload with
      | .obj f =>
        [.error ("Error: " ++ pyShowOpt
          (some ((jGet f "message").getD (.str "Unknown error"))))]
      | _ => []
    else []
  | _ => []

/-- The body of the per-message `try` block of `ChatClient.listen`
(demo.py lines 198-234) applied to an already-parsed top-level JSON value:
`data.get("type", "")` and `data.get("payload", {})` may raise
`AttributeError` when `data` is not a dict; otherwise the dispatch runs and
cannot raise. -/
def handleFrame (username : String) (data : Json) : Except PyExn (List LogLine) :=
  match dataGet data "type" (Json.str "") with
  | .error e => .error e
  | .ok msgType =>
    match dataGet data "payload" (Json.obj []) with
    | .error e => .error e
    | .ok payload => .ok (dispatch username msgType payload)

/-- One inbound raw websocket message, abstracted through `json.loads`:
either the parse raises `json.JSONDecodeError` (`malformed`) or it returns a
JSON value (`frame`). -/
inductive Inbound where
  | malformed (raw : String)
  | frame (j : Json)

/-- Outcome of one iteration of the listener loop: continue with the logs the
iteration printed, or leave the loop with the logs printed on the way out. -/
inductive LoopStep where
  | next (logs : List LogLine)
  | exitLoop (logs : List LogLine)
deriving DecidableEq

/-- One iteration of `ChatClient.listen` (demo.py lines 191-241) on a
received message: break when `running` is false; a `json.JSONDecodeError` is
caught by the inner `except` (log and continue, lines 236-237); any other
exception escapes the inner `try` and is caught only by the outer
`except Exception` (lines 240-241), which logs and ends the loop. -/
def listenStep (username : String) (running : Bool) (raw : Inbound) : LoopStep :=
  if running then
    match raw with
    | .malformed s => .next [.error ("Invalid JSON received: " ++ s)]
    | .frame j =>
      match handleFrame username j with
      | .ok logs => .next logs
      | .error _ => .exitLoop [.error "Listen error"]
  else .exitLoop []

/-- The result of `urlparse(server_url)` (an external stdlib call): the parts
`ensure_room_exists` reads. -/
structure ParsedUrl where
  scheme : String
  netloc : String
  path : String
deriving DecidableEq

/-- Outcome of the `urllib.request.urlopen` POST in `ensure_room_exists`:
success, an `urllib.error.HTTPError` with a status code, or any other
exception (connection refused, timeout, ...). -/
inductive PostOutcome where
  | success
  | httpError (code : Nat)
  | exn (msg : String)
deriving DecidableEq

/-- Python `str.capitalize()`: first character upper-cased, the rest
lower-cased (ASCII-faithful). -/
def pyCapitalize (s : String) : String :=
  match s.toList with
  | [] => ""
  | c :: rest => String.mk (c.toUpper :: rest.map Char.toLower)

/-- `ensure_room_exists` (demo.py lines 250-284): validates the URL scheme and
host (invalid → log and return, no request); otherwise issues one POST with
body `\x7b"name": room_name\x7d` and classifies the outcome: success → created
log, HTTP 409 → already-exists log, other HTTP error → could-not-create log,
any other exception → skipped log. Every path returns normally (nothing
escapes); the first component is the request body actually POSTed, if any. -/
def ensure_room_exists (parsed : ParsedUrl) (roomName : String)
    (post : PostOutcome) : Option Json × List LogLine :=
  if parsed.scheme ∈ ["ws", "wss", "http", "https"] then
    if parsed.netloc = "" then
      (none, [.error "Invalid server URL: missing host"])
    else
      let request := Json.obj [("name", Json.str roomName)]
      match post with
      | .success => (some request, [.info ("Created room " ++ roomName)])
      | .httpError code =>
        if code = 409 then
          (some request, [.info ("Room " ++ roomName ++ " already exists")])
        else
          (some request,
           [.error ("Could not create room: HTTP Error " ++ toString code)])
      | .exn msg => (some request, [.error ("Room creation skipped: " ++ msg)])
  else
    (none, [.error ("Invalid server URL scheme: " ++ parsed.scheme)])

/-- The `=` * 60 separator line printed by `run_demo`. -/
def sepLine : String := String.mk (List.replicate 60 '=')

/-- Everything observable about one `run_demo` invocation: the header it
prints first, the provisioning request and logs, the starting line, the per
session event traces (in client order), and the lines printed after
`asyncio.gather` returns. -/
structure RunResult where
  headerLogs : List String
  provisionRequest : Option Json
  provisionLogs : List LogLine
  startingLog : String
  sessionTraces : List (List Event)
  finalLogs : List String

/-- `run_demo` (demo.py lines 330-365): prints the header, provisions the
room under `room_id.capitalize()` (line 341), builds one client per selected
username (`selected` models `random.sample(USERNAMES, min(num_users,
len(USERNAMES)))`; colors are cosmetic and dropped), schedules every
client's `simulate_chat` at once via `asyncio.gather`, and prints the
completion banner. `parse` models `urlparse`, `connectOutcome i` the
transport result of client `i`'s connection attempt, `pace i` / `content i`
its random pacing and message draws. -/
def run_demo (serverUrl : String) (parse : String → ParsedUrl) (roomId : String)
    (numUsers numMessages : Nat) (post : PostOutcome) (selected : List String)
    (connectOutcome : Nat → Except String Unit) (pace : Nat → Nat → Nat)
    (content : Nat → Nat → String) : RunResult :=
  let prov := ensure_room_exists (parse serverUrl) (pyCapitalize roomId) post
  { headerLogs :=
      [sepLine, "  WebSocket Chat Demo", "  Server: " ++ serverUrl,
       "  Room: " ++ roomId, "  Users: " ++ toString numUsers,
       "  Messages per user: " ++ toString numMessages, sepLine]
    provisionRequest := prov.1
    provisionLogs := prov.2
    startingLog := "Starting chat simulation with " ++
      toString selected.length ++ " users..."
    sessionTraces := selected.enum.map (fun iu =>
      simulate_chat (connectOutcome iu.1) roomId iu.2 numMessages (pace iu.1)
        (content iu.1))
    finalLogs := [sepLine, "  Demo completed!", sepLine] }

/-- State of a session's websocket handle: `noSocket` before a successful
`connect` (`self.ws = None`), then `opened`, then `closed`. -/
inductive WsState where
  | noSocket
  | opened
  | closed
deriving DecidableEq

/-- State of the session's listener task: not yet created, running, or
terminated (finished or cancellation completed). -/
inductive ListenerState where
  | notStarted
  | running
  | done
deriving DecidableEq

/-- The mutable state of one `ChatClient` plus its listener task. -/
structure SessionState where
  running : Bool
  ws : WsState
  listener : ListenerState
deriving DecidableEq

/-- `ChatClient.close` (demo.py lines 243-247): set `running` to false and,
if a websocket exists (`if self.ws:` guards the `None` case, so the call is
safe for a session whose connect failed), close it. It does not touch the
listener task. -/
def close (s : SessionState) : SessionState :=
  { s with running := false,
           ws := match s.ws with | .noSocket => .noSocket | _ => .closed }

/-- The teardown sequence of `simulate_chat` (demo.py lines 320-327): set the
client's `running` to false, cancel the listener task, await its termination
(swallowing `CancelledError`), then call `ChatClient.close`. -/
def teardownSequence (s : SessionState) : SessionState :=
  close { s with running := false, listener := .done }

/-- The outbound frames of a trace, in issuance order. -/
def framesOf (t : List Event) : List Frame :=
  t.filterMap (fun e => match e with | .send f => some f | _ => none)

/-- Whether a frame is a `message` frame. -/
def isMessageFrame : Frame → Bool
  | .message _ => true
  | _ => false

/-- Number of `message` frames a trace issues. -/
def messagesSent (t : List Event) : Nat :=
  (framesOf t).countP isMessageFrame

/-- The room ids carried by the `join` frames of a trace. -/
def joinRoomIds (t : List Event) : List String :=
  (framesOf t).filterMap (fun f => match f with | .join r _ => some r | _ => none)

/-- The delay of the leading `sleep` of a trace, when the trace starts with
one (the formal reading of a per-session start stagger). -/
def leadingDelay (t : List Event) : Option Nat :=
  match t.head? with
  | some (.sleep d) => some d
  | _ => none

/-! Helper lemmas about the traces of `simulate_chat` and `run_demo`. -/

lemma framesOf_append (a b : List Event) :
    framesOf (a ++ b) = framesOf a ++ framesOf b := by
  simp [framesOf, List.filterMap_append]

lemma flatMap_single {α β : Type} (l : List α) (f : α → β) :
    (l.flatMap fun x => [f x]) = l.map f := by
  induction l with
  | nil => rfl
  | cons a t ih => simp [List.flatMap_cons, ih]

lemma framesOf_msgEvents (m : Nat) (pace : Nat → Nat) (content : Nat → String) :
    framesOf (msgEvents m pace content)
      = (List.range m).map (fun i => Frame.message (content i)) := by
  have h : framesOf (msgEvents m pace content)
      = (List.range m).flatMap (fun i => [Frame.message (content i)]) := by
    simp [msgEvents, framesOf, List.filterMap_flatMap]
  rw [h, flatMap_single]

/-- The full outbound frame script of a session whose connect succeeded. -/
def fullScriptFrames (roomId username : String) (numMessages : Nat)
    (content : Nat → String) : List Frame :=
  [Frame.join roomId username, Frame.history, Frame.users] ++
    (List.range numMessages).map (fun i => Frame.message (content i)) ++
    [Frame.leave]

lemma framesOf_simulate_ok (roomId username : String) (m : Nat)
    (pace : Nat → Nat) (content : Nat → String) :
    framesOf (simulate_chat (.ok ()) roomId username m pace content)
      = fullScriptFrames roomId username m content := by
  simp only [simulate_chat, connect, if_true]
  simp [framesOf, List.filterMap_cons, List.filterMap_append, msgEvents,
    List.filterMap_flatMap, fullScriptFrames, flatMap_single]

lemma framesOf_simulate_err (e : String) (roomId username : String) (m : Nat)
    (pace : Nat → Nat) (content : Nat → String) :
    framesOf (simulate_chat (.error e) roomId username m pace content) = [] := by
  simp [simulate_chat, connect, framesOf]

lemma simulate_err_eq (e : String) (roomId username : String) (m : Nat)
    (pace : Nat → Nat) (content : Nat → String) :
    simulate_chat (.error e) roomId username m pace content
      = [Event.connectAttempt,
         Event.log (.error ("Failed to connect: " ++ e))] := by
  simp [simulate_chat, connect]

lemma messagesSent_simulate_ok (roomId username : String) (m : Nat)
    (pace : Nat → Nat) (content : Nat → String) :
    messagesSent (simulate_chat (.ok ()) roomId username m pace content) = m := by
  rw [messagesSent, framesOf_simulate_ok]
  have hp : (isMessageFrame ∘ fun i => Frame.message (content i))
      = fun _ => true := by
    funext i; rfl
  simp [fullScriptFrames, List.countP_append, List.countP_map, hp,
    List.countP_cons, isMessageFrame]

lemma joinRoomIds_simulate_ok (roomId username : String) (m : Nat)
    (pace : Nat → Nat) (content : Nat → String) :
    joinRoomIds (simulate_chat (.ok ()) roomId username m pace content)
      = [roomId] := by
  rw [joinRoomIds, framesOf_simulate_ok]
  simp [fullScriptFrames, List.filterMap_append, List.filterMap_map,
    Function.comp]

lemma head?_simulate (o : Except String Unit) (roomId username : String)
    (m : Nat) (pace : Nat → Nat) (content : Nat → String) :
    (simulate_chat o roomId username m pace content).head?
      = some Event.connectAttempt := by
  cases o <;> simp [simulate_chat, connect]

lemma sum_map_const_of_forall {α : Type} (l : List α) (f : α → Nat) (m : Nat)
    (h : ∀ x ∈ l, f x = m) : (l.map f).sum = l.length * m := by
  induction l with
  | nil => simp
  | cons a t ih =>
    have ha := h a (by simp)
    have ht := ih (fun x hx => h x (by simp [hx]))
    simp [ha, ht, Nat.succ_mul, Nat.add_comm]

lemma sessionTraces_run_demo (serverUrl : String) (parse : String → ParsedUrl)
    (roomId : String) (numUsers numMessages : Nat) (post : PostOutcome)
    (selected : List String) (connectOutcome : Nat → Except String Unit)
    (pace : Nat → Nat → Nat) (content : Nat → Nat → String) :
    (run_demo serverUrl parse roomId numUsers numMessages post selected
        connectOutcome pace content).sessionTraces
      = selected.enum.map (fun iu =>
          simulate_chat (connectOutcome iu.1) roomId iu.2 numMessages
            (pace iu.1) (content iu.1)) := rfl

lemma sessionTraces_getElem? (serverUrl : String) (parse : String → ParsedUrl)
    (roomId : String) (numUsers numMessages : Nat) (post : PostOutcome)
    (selected : List String) (connectOutcome : Nat → Except String Unit)
    (pace : Nat → Nat → Nat) (content : Nat → Nat → String) (i : Nat) :
    (run_demo serverUrl parse roomId numUsers numMessages post selected
        connectOutcome pace content).sessionTraces[i]?
      = (selected[i]?).map (fun u =>
          simulate_chat (connectOutcome i) roomId u numMessages (pace i)
            (content i)) := by
  rw [sessionTraces_run_demo]
  simp only [List.getElem?_map, List.getElem?_enum]
  cases selected[i]? <;> rfl

/-! Fixed concrete parameters used by the witness and counterexample
theorems. -/

/-- A concrete `urlparse` result for the default server URL. -/
def demoParse : String → ParsedUrl := fun _ =>
  { scheme := "ws", netloc := "localhost:8080", path := "/ws" }

/-- Concrete pacing draws (600 ms each). -/
def demoPace : Nat → Nat → Nat := fun _ _ => 600

/-- Concrete message draws. -/
def demoContent : Nat → Nat → String := fun _ _ => "Hello everyone!"

/-- Every connection attempt succeeds. -/
def allOk : Nat → Except String Unit := fun _ => Except.ok ()

/-- Every connection attempt is refused. -/
def allRefused : Nat → Except String Unit := fun _ =>
  Except.error "Connection refused"

/-! The claims. -/

/-- C1: for every valid configuration (`1 ≤ userCount ≤ 12`, the pool size,
and `messagesPerUser ≥ 1`) in which every connection attempt succeeds, the
run schedules exactly `userCount` sessions, each session's messaging loop
issues exactly `messagesPerUser` outbound `message` frames, and the total
over all sessions is `userCount * messagesPerUser`. -/
theorem c1_total_message_frames (serverUrl : String) (parse : String → ParsedUrl)
    (roomId : String) (numUsers numMessages : Nat) (post : PostOutcome)
    (selected : List String) (connectOutcome : Nat → Except String Unit)
    (pace : Nat → Nat → Nat) (content : Nat → Nat → String)
    (h1 : 1 ≤ numUsers) (h2 : numUsers ≤ USERNAMES.length)
    (h3 : 1 ≤ numMessages)
    (hsel : selected.length = min numUsers USERNAMES.length)
    (hok : ∀ i, connectOutcome i = .ok ()) :
    (run_demo serverUrl parse roomId numUsers numMessages post selected
        connectOutcome pace content).sessionTraces.length = numUsers
  ∧ (∀ t ∈ (run_demo serverUrl parse roomId numUsers numMessages post selected
        connectOutcome pace content).sessionTraces,
      messagesSent t = numMessages)
  ∧ ((run_demo serverUrl parse roomId numUsers numMessages post selected
        connectOutcome pace content).sessionTraces.map messagesSent).sum
      = numUsers * numMessages := by
  have hlen : selected.length = numUsers := by
    rw [hsel]; exact Nat.min_eq_left h2
  have htlen : (run_demo serverUrl parse roomId numUsers numMessages post
      selected connectOutcome pace content).sessionTraces.length = numUsers := by
    rw [sessionTraces_run_demo]; simp [hlen]
  have hmem : ∀ t ∈ (run_demo serverUrl parse roomId numUsers numMessages post
      selected connectOutcome pace content).sessionTraces,
      messagesSent t = numMessages := by
    intro t ht
    rw [sessionTraces_run_demo] at ht
    obtain ⟨iu, hiu, rfl⟩ := List.mem_map.mp ht
    rw [hok iu.1]
    exact messagesSent_simulate_ok roomId iu.2 numMessages (pace iu.1)
      (content iu.1)
  refine ⟨htlen, hmem, ?_⟩
  rw [sum_map_const_of_forall _ _ _ hmem, htlen]

/-- C1 witness: at `userCount = 3`, `messagesPerUser = 2`, with the pool
sample `["Alice", "Bob", "Charlie"]` and all connections succeeding, the run
schedules 3 sessions and issues 6 `message` frames in total. -/
theorem c1_total_message_frames_witness :
    (run_demo "ws://localhost:8080/ws" demoParse "lobby" 3 2 .success
        ["Alice", "Bob", "Charlie"] allOk demoPace
        demoContent).sessionTraces.length = 3
  ∧ ((run_demo "ws://localhost:8080/ws" demoParse "lobby" 3 2 .success
        ["Alice", "Bob", "Charlie"] allOk demoPace
        demoContent).sessionTraces.map messagesSent).sum = 3 * 2 := by
  have h := c1_total_message_frames "ws://localhost:8080/ws" demoParse "lobby"
    3 2 .success ["Alice", "Bob", "Charlie"] allOk demoPace demoContent
    (by decide) (by decide) (by decide) (by decide) (fun _ => rfl)
  exact ⟨h.1, h.2.2⟩

/-- C2 counterexample: with a provisioning failure (HTTP 500 from the room
endpoint) the run does not abort: both sessions still connect, join, query,
send their message, and leave — refuting the claim that no session starts
after a provisioning failure. -/
theorem c2_counterexample_provisioning_failure_still_runs :
    (run_demo "ws://localhost:8080/ws" demoParse "lobby" 2 1 (.httpError 500)
        ["Alice", "Bob"] allOk demoPace demoContent).provisionLogs
      = [LogLine.error "Could not create room: HTTP Error 500"]
  ∧ (run_demo "ws://localhost:8080/ws" demoParse "lobby" 2 1 (.httpError 500)
        ["Alice", "Bob"] allOk demoPace demoContent).sessionTraces.map framesOf
      = [[Frame.join "lobby" "Alice", Frame.history, Frame.users,
          Frame.message "Hello everyone!", Frame.leave],
         [Frame.join "lobby" "Bob", Frame.history, Frame.users,
          Frame.message "Hello everyone!", Frame.leave]] := by
  exact ⟨rfl, rfl⟩

/-- C2 amended: a provisioning failure is logged and otherwise ignored —
`ensure_room_exists` returns normally for every outcome, and the run
proceeds to start all sessions, whose behavior is independent of the
provisioning outcome. -/
theorem c2_amended_provisioning_outcome_ignored (serverUrl : String)
    (parse : String → ParsedUrl) (roomId : String) (numUsers numMessages : Nat)
    (selected : List String) (connectOutcome : Nat → Except String Unit)
    (pace : Nat → Nat → Nat) (content : Nat → Nat → String)
    (post post' : PostOutcome) :
    (run_demo serverUrl parse roomId numUsers numMessages post selected
        connectOutcome pace content).sessionTraces
      = (run_demo serverUrl parse roomId numUsers numMessages post' selected
          connectOutcome pace content).sessionTraces
  ∧ (run_demo serverUrl parse roomId numUsers numMessages post selected
        connectOutcome pace content).finalLogs
      = (run_demo serverUrl parse roomId numUsers numMessages post' selected
          connectOutcome pace content).finalLogs
  ∧ (run_demo serverUrl parse roomId numUsers numMessages post selected
        connectOutcome pace content).sessionTraces.length
      = selected.length := by
  refine ⟨rfl, rfl, ?_⟩
  rw [sessionTraces_run_demo]; simp

/-- C3 counterexample: `ChatClient.close` does not cancel or await the
listener task — closing a session whose listener is running leaves the
listener still running when `close` returns, refuting the claim that
`close()` itself guarantees listener termination. -/
theorem c3_counterexample_close_leaves_listener :
    (close { running := true, ws := .opened, listener := .running }).listener
      = ListenerState.running
  ∧ (close { running := true, ws := .opened, listener := .running }).listener
      ≠ ListenerState.done := by
  exact ⟨rfl, by decide⟩

/-- C3 amended: the listener cancellation and await are performed by the
teardown sequence of `simulate_chat` before it calls `close()`; when the
teardown returns, `running` is false, the Listener Loop has terminated (no
dangling task) and the Transport is closed (or still absent for a session
that never connected, for which `close` is safe). `close` — which itself
only clears `running` and closes the socket — and the teardown are both
idempotent. -/
theorem c3_amended_teardown_closes (s : SessionState) :
    (teardownSequence s).running = false
  ∧ (teardownSequence s).listener = ListenerState.done
  ∧ (teardownSequence s).ws
      = (if s.ws = WsState.noSocket then WsState.noSocket else WsState.closed)
  ∧ close (close s) = close s
  ∧ teardownSequence (teardownSequence s) = teardownSequence s := by
  rcases s with ⟨r, w, l⟩
  unfold teardownSequence close
  cases w <;> simp

/-- C4: the three observed shapes of a `users` payload — a bare list of
strings, an object with a list of strings, and an object with a list of
username-objects — all decode to the identical username list, in order. -/
theorem c4_extract_usernames_shapes (L : List String) :
    extract_usernames (Json.arr (L.map Json.str)) = L
  ∧ extract_usernames (Json.obj [("users", Json.arr (L.map Json.str))]) = L
  ∧ extract_usernames (Json.obj [("users", Json.arr
      (L.map (fun u => Json.obj [("username", Json.str u)])))]) = L := by
  refine ⟨?_, ?_, ?_⟩ <;>
  · induction L with
    | nil => rfl
    | cons a t ih => simpa [extract_usernames, jGet] using ih

/-- C5 counterexample: a well-formed top-level JSON value that is not an
object (here the number 5) makes `data.get` raise `AttributeError`, which is
not caught by the inner `except json.JSONDecodeError` — it escapes the
decode boundary and terminates the Listener Loop via the outer handler,
refuting the claim that decoding never throws past the decode boundary for
every inbound byte sequence (with the loop continuing). -/
theorem c5_counterexample_nonobject_escapes :
    handleFrame "Alice" (Json.num 5) = Except.error PyExn.attributeError
  ∧ listenStep "Alice" true (.frame (Json.num 5))
      = LoopStep.exitLoop [LogLine.error "Listen error"] := ⟨rfl, rfl⟩

/-- C5 amended: malformed top-level JSON is caught at the decode boundary,
logged, and the loop continues; when the top-level JSON is an object, the
handler never raises — every payload shape mismatch degrades to a
default-valued dispatch; but when the top-level JSON is well-formed and not
an object, the handler raises past the decode boundary and the Listener
Loop terminates (logged by the outer handler, without crashing the run). -/
theorem c5_amended_decode_totality (username : String) (raw : Inbound) :
    (∀ s, raw = .malformed s →
      listenStep username true raw
        = .next [.error ("Invalid JSON received: " ++ s)])
  ∧ (∀ fields, raw = .frame (.obj fields) →
      handleFrame username (.obj fields)
          = .ok (dispatch username ((jGet fields "type").getD (.str ""))
              ((jGet fields "payload").getD (.obj [])))
      ∧ listenStep username true raw
          = .next (dispatch username ((jGet fields "type").getD (.str ""))
              ((jGet fields "payload").getD (.obj []))))
  ∧ (∀ j, raw = .frame j → (∀ fields, j ≠ Json.obj fields) →
      listenStep username true raw = .exitLoop [.error "Listen error"]) := by
  refine ⟨?_, ?_, ?_⟩
  · rintro s rfl; rfl
  · rintro fields rfl; exact ⟨rfl, rfl⟩
  · rintro j rfl hno
    cases j with
    | null => rfl
    | bool b => rfl
    | num n => rfl
    | str s => rfl
    | arr items => rfl
    | obj fields => exact absurd rfl (hno fields)

/-- C5 amended witness: a malformed message is logged and the loop continues;
an object envelope with a mismatched `users` payload degrades to the default
(empty) user list; a non-object envelope ends the loop. -/
theorem c5_amended_decode_totality_witness :
    listenStep "Alice" true (.malformed "not json")
      = LoopStep.next [LogLine.error ("Invalid JSON received: " ++ "not json")]
  ∧ listenStep "Alice" true
      (.frame (.obj [("type", Json.str "users"), ("payload", Json.num 3)]))
      = LoopStep.next [LogLine.info "Users in room: "]
  ∧ listenStep "Alice" true (.frame (Json.str "hello"))
      = LoopStep.exitLoop [LogLine.error "Listen error"] := by
  refine ⟨?_, ?_, ?_⟩
  · exact (c5_amended_decode_totality "Alice" (.malformed "not json")).1
      "not json" rfl
  · have h := (c5_amended_decode_totality "Alice"
      (.frame (.obj [("type", Json.str "users"),
        ("payload", Json.num 3)]))).2.1
      [("type", Json.str "users"), ("payload", Json.num 3)] rfl
    rw [h.2]; rfl
  · exact (c5_amended_decode_totality "Alice" (.frame (Json.str "hello"))).2.2
      (Json.str "hello") rfl (fun fields h => by cases h)

/-- C6: an HTTP 409 conflict from the room endpoint is treated like a
created room by everything downstream: the session traces, final output and
the request issued are identical to the success case, and the conflict is
reported with a success-style (non-error) log line; nothing is raised in
either case. -/
theorem c6_conflict_equals_success (serverUrl : String)
    (parse : String → ParsedUrl) (roomId : String)
    (numUsers numMessages : Nat) (selected : List String)
    (connectOutcome : Nat → Except String Unit) (pace : Nat → Nat → Nat)
    (content : Nat → Nat → String)
    (hscheme : (parse serverUrl).scheme ∈ ["ws", "wss", "http", "https"])
    (hnet : ¬ (parse serverUrl).netloc = "") :
    (run_demo serverUrl parse roomId numUsers numMessages (.httpError 409)
        selected connectOutcome pace content).sessionTraces
      = (run_demo serverUrl parse roomId numUsers numMessages .success
          selected connectOutcome pace content).sessionTraces
  ∧ (run_demo serverUrl parse roomId numUsers numMessages (.httpError 409)
        selected connectOutcome pace content).finalLogs
      = (run_demo serverUrl parse roomId numUsers numMessages .success
          selected connectOutcome pace content).finalLogs
  ∧ (run_demo serverUrl parse roomId numUsers numMessages (.httpError 409)
        selected connectOutcome pace content).provisionRequest
      = (run_demo serverUrl parse roomId numUsers numMessages .success
          selected connectOutcome pace content).provisionRequest
  ∧ (run_demo serverUrl parse roomId numUsers numMessages (.httpError 409)
        selected connectOutcome pace content).provisionLogs
      = [LogLine.info ("Room " ++ pyCapitalize roomId ++ " already exists")]
  ∧ (run_demo serverUrl parse roomId numUsers numMessages .success
        selected connectOutcome pace content).provisionLogs
      = [LogLine.info ("Created room " ++ pyCapitalize roomId)] := by
  refine ⟨rfl, rfl, ?_, ?_, ?_⟩ <;>
    simp [run_demo, ensure_room_exists, hscheme, hnet]

/-- C6 witness: at a concrete valid configuration, the conflict run and the
success run coincide downstream and the conflict is logged as success. -/
theorem c6_conflict_equals_success_witness :
    (run_demo "ws://localhost:8080/ws" demoParse "lobby" 2 1 (.httpError 409)
        ["Alice", "Bob"] allOk demoPace demoContent).sessionTraces
      = (run_demo "ws://localhost:8080/ws" demoParse "lobby" 2 1 .success
          ["Alice", "Bob"] allOk demoPace demoContent).sessionTraces
  ∧ (run_demo "ws://localhost:8080/ws" demoParse "lobby" 2 1 (.httpError 409)
        ["Alice", "Bob"] allOk demoPace demoContent).provisionLogs
      = [LogLine.info ("Room " ++ pyCapitalize "lobby" ++ " already exists")] := by
  have h := c6_conflict_equals_success "ws://localhost:8080/ws" demoParse
    "lobby" 2 1 ["Alice", "Bob"] allOk demoPace demoContent (by decide)
    (by decide)
  exact ⟨h.1, h.2.2.2.1⟩

/-- C7: a connection failure is isolated to its session: the failing session
issues no frames and terminates right after logging the failure, every other
session still runs its full script (join to the configured room, history and
users queries, all its messages, leave, and the closing teardown), and the
run still completes with one result per scheduled session. -/
theorem c7_connect_failure_isolated (serverUrl : String)
    (parse : String → ParsedUrl) (roomId : String)
    (numUsers numMessages : Nat) (post : PostOutcome) (selected : List String)
    (connectOutcome : Nat → Except String Unit) (pace : Nat → Nat → Nat)
    (content : Nat → Nat → String) (j : Nat) (e : String)
    (hj : j < selected.length)
    (hfail : connectOutcome j = .error e)
    (hok : ∀ i, i ≠ j → connectOutcome i = .ok ()) :
    (run_demo serverUrl parse roomId numUsers numMessages post selected
        connectOutcome pace content).sessionTraces.length = selected.length
  ∧ (run_demo serverUrl parse roomId numUsers numMessages post selected
        connectOutcome pace content).sessionTraces[j]?
      = some [Event.connectAttempt,
          Event.log (.error ("Failed to connect: " ++ e))]
  ∧ (∀ i, i ≠ j → ∀ t,
      (run_demo serverUrl parse roomId numUsers numMessages post selected
          connectOutcome pace content).sessionTraces[i]? = some t →
        messagesSent t = numMessages
      ∧ joinRoomIds t = [roomId]
      ∧ Frame.history ∈ framesOf t
      ∧ Frame.users ∈ framesOf t
      ∧ Frame.leave ∈ framesOf t
      ∧ Event.closeWs ∈ t) := by
  refine ⟨?_, ?_, ?_⟩
  · rw [sessionTraces_run_demo]; simp
  · rw [sessionTraces_getElem?]
    have hsome : selected[j]? = some (selected.get ⟨j, hj⟩) := by
      simp [List.getElem?_eq_getElem hj]
    rw [hsome]
    simp [hfail, simulate_err_eq]
  · intro i hi t ht
    rw [sessionTraces_getElem?] at ht
    cases hsel : selected[i]? with
    | none => rw [hsel] at ht; simp at ht
    | some u =>
      rw [hsel] at ht
      simp only [Option.map_some'] at ht
      rw [hok i hi] at ht
      obtain rfl := Option.some.inj ht
      refine ⟨messagesSent_simulate_ok roomId u numMessages (pace i)
          (content i),
        joinRoomIds_simulate_ok roomId u numMessages (pace i) (content i),
        ?_, ?_, ?_, ?_⟩
      · rw [framesOf_simulate_ok]; simp [fullScriptFrames]
      · rw [framesOf_simulate_ok]; simp [fullScriptFrames]
      · rw [framesOf_simulate_ok]; simp [fullScriptFrames]
      · simp [simulate_chat, connect]

/-- A connection-outcome pattern where exactly the second session's connect
is refused. -/
def oneFail : Nat → Except String Unit := fun i =>
  if i = 1 then Except.error "Connection refused" else Except.ok ()

/-- C7 witness: with three sessions and the second connection refused, the
run still yields three session results, the failing trace is just the
logged failure, and the first session still sends its 2 messages. -/
theorem c7_connect_failure_isolated_witness :
    (run_demo "ws://localhost:8080/ws" demoParse "lobby" 3 2 .success
        ["Alice", "Bob", "Charlie"] oneFail demoPace
        demoContent).sessionTraces.length = 3
  ∧ (run_demo "ws://localhost:8080/ws" demoParse "lobby" 3 2 .success
        ["Alice", "Bob", "Charlie"] oneFail demoPace
        demoContent).sessionTraces[1]?
      = some [Event.connectAttempt,
          Event.log (.error ("Failed to connect: " ++ "Connection refused"))]
  ∧ ((run_demo "ws://localhost:8080/ws" demoParse "lobby" 3 2 .success
        ["Alice", "Bob", "Charlie"] oneFail demoPace
        demoContent).sessionTraces[0]?).map messagesSent = some 2 := by
  have h := c7_connect_failure_isolated "ws://localhost:8080/ws" demoParse
    "lobby" 3 2 .success ["Alice", "Bob", "Charlie"] oneFail demoPace
    demoContent 1 "Connection refused" (by decide) rfl
    (fun i hi => by simp [oneFail, hi])
  have htr : (run_demo "ws://localhost:8080/ws" demoParse "lobby" 3 2 .success
      ["Alice", "Bob", "Charlie"] oneFail demoPace
      demoContent).sessionTraces[0]?
      = some (simulate_chat (.ok ()) "lobby" "Alice" 2 (demoPace 0)
          (demoContent 0)) := rfl
  refine ⟨h.1, h.2.1, ?_⟩
  rw [htr, Option.map_some']
  rw [(h.2.2 0 (by decide) _ htr).1]

/-- C8 counterexample: two runs with the same configuration but different
actual outcomes — one issues 15 messages with no failures, the other issues
0 messages with every connect refused — end with the identical completion
output, so the run's end-of-run report contains neither the total number of
messages issued nor any per-user error, refuting the claimed summary. -/
theorem c8_counterexample_summary_constant :
    ((run_demo "ws://localhost:8080/ws" demoParse "lobby" 3 5 .success
        ["Alice", "Bob", "Charlie"] allOk demoPace
        demoContent).sessionTraces.map messagesSent).sum = 15
  ∧ ((run_demo "ws://localhost:8080/ws" demoParse "lobby" 3 5 .success
        ["Alice", "Bob", "Charlie"] allRefused demoPace
        demoContent).sessionTraces.map messagesSent).sum = 0
  ∧ (run_demo "ws://localhost:8080/ws" demoParse "lobby" 3 5 .success
        ["Alice", "Bob", "Charlie"] allOk demoPace demoContent).finalLogs
      = (run_demo "ws://localhost:8080/ws" demoParse "lobby" 3 5 .success
          ["Alice", "Bob", "Charlie"] allRefused demoPace
          demoContent).finalLogs := ⟨rfl, rfl, rfl⟩

/-- C8 amended: the run produces no aggregate summary — it ends with a fixed
completion banner independent of what happened; the configured user count
and messages-per-user are echoed in the pre-run header, and a per-user error
appears only as an inline log line inside that session's own trace. -/
theorem c8_amended_fixed_banner (serverUrl : String)
    (parse : String → ParsedUrl) (roomId : String)
    (numUsers numMessages : Nat) (post : PostOutcome) (selected : List String)
    (connectOutcome : Nat → Except String Unit) (pace : Nat → Nat → Nat)
    (content : Nat → Nat → String) (j : Nat) (e : String)
    (hj : j < selected.length)
    (hfail : connectOutcome j = .error e) :
    (run_demo serverUrl parse roomId numUsers numMessages post selected
        connectOutcome pace content).finalLogs
      = [sepLine, "  Demo completed!", sepLine]
  ∧ ("  Users: " ++ toString numUsers)
      ∈ (run_demo serverUrl parse roomId numUsers numMessages post selected
          connectOutcome pace content).headerLogs
  ∧ ("  Messages per user: " ++ toString numMessages)
      ∈ (run_demo serverUrl parse roomId numUsers numMessages post selected
          connectOutcome pace content).headerLogs
  ∧ (run_demo serverUrl parse roomId numUsers numMessages post selected
        connectOutcome pace content).sessionTraces[j]?
      = some [Event.connectAttempt,
          Event.log (.error ("Failed to connect: " ++ e))] := by
  refine ⟨rfl, by simp [run_demo], by simp [run_demo], ?_⟩
  rw [sessionTraces_getElem?]
  have hsome : selected[j]? = some (selected.get ⟨j, hj⟩) := by
    simp [List.getElem?_eq_getElem hj]
  rw [hsome]
  simp [hfail, simulate_err_eq]

/-- C8 amended witness: at a concrete run with the second connect refused,
the banner is the fixed one, the header echoes the configured counts, and
the failing session's trace carries the inline error. -/
theorem c8_amended_fixed_banner_witness :
    (run_demo "ws://localhost:8080/ws" demoParse "lobby" 3 2 .success
        ["Alice", "Bob", "Charlie"] oneFail demoPace demoContent).finalLogs
      = [sepLine, "  Demo completed!", sepLine]
  ∧ ("  Users: " ++ toString 3)
      ∈ (run_demo "ws://localhost:8080/ws" demoParse "lobby" 3 2 .success
          ["Alice", "Bob", "Charlie"] oneFail demoPace demoContent).headerLogs
  ∧ (run_demo "ws://localhost:8080/ws" demoParse "lobby" 3 2 .success
        ["Alice", "Bob", "Charlie"] oneFail demoPace
        demoContent).sessionTraces[1]?
      = some [Event.connectAttempt,
          Event.log (.error ("Failed to connect: " ++ "Connection refused"))] := by
  have h := c8_amended_fixed_banner "ws://localhost:8080/ws" demoParse "lobby"
    3 2 .success ["Alice", "Bob", "Charlie"] oneFail demoPace demoContent 1
    "Connection refused" (by decide) rfl
  exact ⟨h.1, h.2.1, h.2.2.2⟩

/-- C9 counterexample: in a concrete run no session's script is preceded by
any delay — every scheduled trace starts with the connect attempt itself,
with no leading sleep — refuting the claimed per-session staggered start. -/
theorem c9_counterexample_no_leading_delay :
    (run_demo "ws://localhost:8080/ws" demoParse "lobby" 3 5 .success
        ["Alice", "Bob", "Charlie"] allOk demoPace
        demoContent).sessionTraces.map leadingDelay = [none, none, none] := rfl

/-- C9 amended: there is no stagger — `run_demo` schedules every session at
once via `asyncio.gather`, and each session's trace begins immediately with
its connect attempt; the only delays are the fixed and random sleeps inside
each script, after its start. -/
theorem c9_amended_no_stagger (serverUrl : String)
    (parse : String → ParsedUrl) (roomId : String)
    (numUsers numMessages : Nat) (post : PostOutcome) (selected : List String)
    (connectOutcome : Nat → Except String Unit) (pace : Nat → Nat → Nat)
    (content : Nat → Nat → String) :
    (run_demo serverUrl parse roomId numUsers numMessages post selected
        connectOutcome pace content).sessionTraces.map (fun t => t.head?)
      = List.replicate selected.length (some Event.connectAttempt) := by
  rw [sessionTraces_run_demo]
  refine List.eq_replicate_iff.mpr ⟨by simp, ?_⟩
  intro b hb
  simp only [List.map_map, List.mem_map] at hb
  obtain ⟨iu, hiu, rfl⟩ := hb
  exact head?_simulate (connectOutcome iu.1) roomId iu.2 numMessages
    (pace iu.1) (content iu.1)

/-- C10: the run provisions the room under `capitalize(roomName)` — the POST
body carries the capitalized name — while every `join` frame any session
sends carries the original room name unchanged; the two differ whenever the
configured name is not already capitalized. -/
theorem c10_provision_name_capitalized (serverUrl : String)
    (parse : String → ParsedUrl) (roomId : String)
    (numUsers numMessages : Nat) (post : PostOutcome) (selected : List String)
    (connectOutcome : Nat → Except String Unit) (pace : Nat → Nat → Nat)
    (content : Nat → Nat → String)
    (hscheme : (parse serverUrl).scheme ∈ ["ws", "wss", "http", "https"])
    (hnet : ¬ (parse serverUrl).netloc = "")
    (hcap : pyCapitalize roomId ≠ roomId) :
    (run_demo serverUrl parse roomId numUsers numMessages post selected
        connectOutcome pace content).provisionRequest
      = some (Json.obj [("name", Json.str (pyCapitalize roomId))])
  ∧ (∀ t ∈ (run_demo serverUrl parse roomId numUsers numMessages post selected
        connectOutcome pace content).sessionTraces,
      ∀ r ∈ joinRoomIds t, r = roomId)
  ∧ pyCapitalize roomId ≠ roomId := by
  refine ⟨?_, ?_, hcap⟩
  · show (ensure_room_exists (parse serverUrl) (pyCapitalize roomId) post).1
      = _
    simp only [ensure_room_exists]
    rw [if_pos hscheme, if_neg hnet]
    cases post with
    | success => rfl
    | httpError code =>
      by_cases hc : code = 409
      · simp [hc]
      · simp [hc]
    | exn m => rfl
  · intro t ht r hr
    rw [sessionTraces_run_demo] at ht
    obtain ⟨iu, hiu, rfl⟩ := List.mem_map.mp ht
    cases ho : connectOutcome iu.1 with
    | ok u =>
      cases u
      rw [ho, joinRoomIds_simulate_ok] at hr
      simpa using hr
    | error e =>
      rw [ho, simulate_err_eq] at hr
      simp [joinRoomIds, framesOf] at hr

/-- C10 witness: for the default room name `lobby`, the provisioning request
carries `Lobby` while the sessions join `lobby`. -/
theorem c10_provision_name_capitalized_witness :
    pyCapitalize "lobby" = "Lobby"
  ∧ (run_demo "ws://localhost:8080/ws" demoParse "lobby" 2 1 .success
        ["Alice", "Bob"] allOk demoPace demoContent).provisionRequest
      = some (Json.obj [("name", Json.str "Lobby")]) := by
  have h := c10_provision_name_capitalized "ws://localhost:8080/ws" demoParse
    "lobby" 2 1 .success ["Alice", "Bob"] allOk demoPace demoContent
    (by decide) (by decide) (by decide)
  refine ⟨by decide, ?_⟩
  rw [h.1]; rfl

end ChatDemo
